import Mathlib

/-!
Shallow embedding of `src/agent_tools/sequential_toolkit.py`
(`SequentialPDFFitRunner`): the File Ledger, the Parameter Carryover Store,
and the Round Executor.

Modelling boundary:
* Input files are identified by their numeric ordering key (`File := Nat`);
  path equality is key equality for the sorted listings considered here.
* `check_for_new_data` receives the directory listing already sorted by the
  ordering key (lines 51-57 of the source perform the glob, the regex key
  extraction and the `sorted` call against the filesystem; they are external
  I/O and are deterministic given the directory contents, so the function is
  modelled from line 58 onward over the sorted listing).
* The fit engine (`PDFAdapter`: `init_profile`, `init_structures`,
  `init_contribution`, `init_recipe`, `set_initial_variable_values`,
  `refine_variables`, `save_results`) is the external collaborator; one whole
  per-file engine interaction is an oracle `Engine` returning `none` when any
  of those calls raises and otherwise the `variables` section of the saved
  result.  Scalar parameter values are opaque and modelled as `Int`.
* A raised Python exception is an error value; when the source mutates state
  before raising, the error case carries the mutated state.
-/

namespace AgentTools

/-- An input file, identified by its numeric ordering key. -/
abbrev File := Nat

/-- One entry of the `variables` section of a persisted result: an object
with a `value` field and optional extra metadata. -/
structure VarPack where
  value : Int
  uncertainty : Option Int
  deriving DecidableEq

/-- A plain parameter-name-to-scalar-value mapping (a Python dict, ordered). -/
abbrev VarMap := List (String × Int)

/-- The `variables` section of a persisted fit result. -/
abbrev ResultVars := List (String × VarPack)

/-- `{name: pack["value"] for name, pack in vars.items()}` (source lines
94-97 and 139-142). -/
def extract_values (vars : ResultVars) : VarMap :=
  vars.map (fun p => (p.1, p.2.value))

/-- The mutable state of `SequentialPDFFitRunner`: the File Ledger
(`input_files_known`, `input_files_completed`, `input_files_running`) and the
Parameter Carryover Store (`last_result_variables_values`; `none` models the
attribute not yet existing, cf. the `hasattr` check at line 125). -/
structure RunnerState where
  input_files_known : List File
  input_files_completed : List File
  input_files_running : List File
  last_result_variables_values : Option VarMap
  deriving DecidableEq

/-- The state right after `__init__`. -/
def initState : RunnerState := ⟨[], [], [], none⟩

/-- The claim-relevant entries of the `self.inputs` dict built by
`load_inputs`.  The remaining entries (directory paths, ordering pattern,
x/Q window bounds) are stored verbatim and only forwarded to the external
adapter, so they are not represented.  `refine_variable_names` keeps the
Python value domain `None | list` because line 130 of `start_one_round`
tests it against `None`. -/
structure StoredInputs where
  refine_variable_names : Option (List String)
  initial_variable_values : VarMap
  deriving DecidableEq

/-- `load_inputs` (source lines 20-46, the two claim-relevant entries):
stores `refine_variable_names or []` and `initial_variable_values or {}`
(Python `or`: a `None` or empty argument is replaced by the empty
list/dict, so the stored refine-name entry is always a list, never
`None`). -/
def load_inputs (refine_variable_names : Option (List String))
    (initial_variable_values : Option VarMap) : StoredInputs :=
  ⟨some (refine_variable_names.getD []), initial_variable_values.getD []⟩

/-- The `RuntimeError` raised by `check_for_new_data` (lines 62-66). -/
inductive RescanError
  | orderingViolation
  deriving DecidableEq

/-- `check_for_new_data` (source lines 48-75) applied to the sorted
directory listing `sorted_file`: raises when the previously known files are
not the prefix of the listing (raised before any mutation, so the error
carries no state change); is a no-op when the listing is unchanged;
otherwise replaces `input_files_known` and recomputes
`input_files_running` as the new known files not yet completed, in order. -/
def check_for_new_data (s : RunnerState) (sorted_file : List File) :
    Except RescanError RunnerState :=
  if s.input_files_known ≠ sorted_file.take s.input_files_known.length then
    .error .orderingViolation
  else if s.input_files_known = sorted_file then
    .ok s
  else
    .ok { s with
      input_files_known := sorted_file,
      input_files_running :=
        sorted_file.filter (fun f => !(s.input_files_completed.contains f)) }

/-- The Python exceptions of `set_start_input_file`: the `ValueError` of
line 82 and the `IndexError` of the `completed[-1]` access at line 89. -/
inductive PyError
  | valueError
  | indexError
  deriving DecidableEq

/-- `set_start_input_file` (source lines 77-98).  `loader` is the
composition of `input_filename_to_result_filename` with reading the
`variables` section of the persisted result file.  Returns the state
together with the raised exception, if any; the `IndexError` case carries
the state because lines 86-87 mutate the ledger before line 89 raises. -/
def set_start_input_file (loader : File → ResultVars) (s : RunnerState)
    (input_filename : File) : RunnerState × Option PyError :=
  if !(s.input_files_known.contains input_filename) then
    (s, some .valueError)
  else
    let start_index := s.input_files_known.indexOf input_filename
    let s1 : RunnerState := { s with
      input_files_completed := s.input_files_known.take start_index,
      input_files_running := s.input_files_known.drop start_index }
    match s1.input_files_completed.getLast? with
    | none => (s1, some .indexError)
    | some last =>
      ({ s1 with
          last_result_variables_values :=
            some (extract_values (loader last)) }, none)

/-- The per-file engine interaction of `start_one_round` (lines 114-138
collapsed): given the input file, the starting parameter values applied by
`set_initial_variable_values`, and the names passed to `refine_variables`,
the engine either fails (`none`: any of the adapter calls raises) or
returns the `variables` section of the result saved by `save_results`. -/
abbrev Engine := File → VarMap → List String → Option ResultVars

/-- Lines 130-132: the names actually passed to
`adapter.refine_variables`.  The stored entry is replaced by the keys of
`initial_variable_values` only when it is `None`. -/
def resolve_refine_names (refine_variable_names : Option (List String))
    (initial_variable_values : VarMap) : List String :=
  match refine_variable_names with
  | none => initial_variable_values.map Prod.fst
  | some l => l

/-- The effective Carryover Store content: `last_result_variables_values`
when the attribute exists, else the configured initial values (the seeding
of lines 125-126). -/
def eff_carryover (cfg : StoredInputs) (s : RunnerState) : VarMap :=
  s.last_result_variables_values.getD cfg.initial_variable_values

/-- One iteration of the loop body of `start_one_round` (lines 113-144):
seed the carryover attribute if absent, call the engine; on failure
(`false`) the state is as mutated so far; on success append the file to
`input_files_completed` and overwrite the Carryover Store with the saved
result's values. -/
def process_file (engine : Engine) (cfg : StoredInputs) (s : RunnerState)
    (input_file : File) : RunnerState × Bool :=
  let carry := eff_carryover cfg s
  let s1 : RunnerState :=
    { s with last_result_variables_values := some carry }
  match engine input_file carry
      (resolve_refine_names cfg.refine_variable_names
        cfg.initial_variable_values) with
  | none => (s1, false)
  | some results =>
    ({ s1 with
        last_result_variables_values := some (extract_values results),
        input_files_completed :=
          s1.input_files_completed ++ [input_file] }, true)

/-- The raised exceptions of `start_one_round`: the propagated
`RuntimeError` of `check_for_new_data` and an engine failure on a file. -/
inductive RoundError
  | orderingViolation
  | fitFailure (f : File)
  deriving DecidableEq

/-- The loop of `start_one_round` over (a snapshot of)
`input_files_running`; the exception of a failing file aborts the loop and
propagates with the state mutated so far.  The loop never mutates
`input_files_running` itself. -/
def run_files (engine : Engine) (cfg : StoredInputs) :
    List File → RunnerState → RunnerState × Option RoundError
  | [], s => (s, none)
  | f :: rest, s =>
    match process_file engine cfg s f with
    | (s1, false) => (s1, some (.fitFailure f))
    | (s1, true) => run_files engine cfg rest s1

/-- Outcome of one `start_one_round` call: the runner state, the raised
exception if any, and — when no exception was raised — the Python return
value (`retVal`).  The source returns `None` at line 112 and falls off the
end at line 145, so the return value is `none` in both paths; the field is
typed as an optional result list to compare against the specified
contract. -/
structure RoundOutcome where
  state : RunnerState
  error : Option RoundError
  retVal : Option (List ResultVars)
  deriving DecidableEq

/-- `start_one_round` (source lines 100-145): rescan first (propagating the
ordering violation unchanged), return `None` when nothing is pending,
otherwise run every pending file in order and clear
`input_files_running` — line 145 runs only when the whole loop
succeeded. -/
def start_one_round (engine : Engine) (cfg : StoredInputs)
    (sorted_file : List File) (s : RunnerState) : RoundOutcome :=
  match check_for_new_data s sorted_file with
  | .error _ => ⟨s, some .orderingViolation, none⟩
  | .ok s1 =>
    if s1.input_files_running = [] then
      ⟨s1, none, none⟩
    else
      match run_files engine cfg s1.input_files_running s1 with
      | (s2, some e) => ⟨s2, some e, none⟩
      | (s2, none) => ⟨{ s2 with input_files_running := [] }, none, none⟩

/-! Concrete instances used to evaluate the embedding on explicit inputs. -/

/-- An engine that raises on file 2 and succeeds on every other file,
returning a refined value for parameter `a`. -/
def engineC1 : Engine := fun f _ _ =>
  if f = 2 then none else some [("a", ⟨5, none⟩)]

/-- Configuration refining parameter `a` from initial value 0. -/
def cfgC1 : StoredInputs := load_inputs (some ["a"]) (some [("a", 0)])

/-- An engine that succeeds exactly when the list of names marked free is
empty, so a successful fit witnesses that `refine_variables` received
`[]`. -/
def engineC3 : Engine := fun _ _ names =>
  if names = [] then some [("rv", ⟨1, none⟩)] else none

/-- An engine whose refinement always fails. -/
def engineFail : Engine := fun _ _ _ => none

/-- An engine whose refinement always succeeds with `a = 3`. -/
def engineOk : Engine := fun _ _ _ => some [("a", ⟨3, none⟩)]

/-- Configuration with both entries omitted (`None` in Python). -/
def cfg0 : StoredInputs := load_inputs none none

/-- A result loader whose persisted `variables` section maps `a` to a pack
with value 7. -/
def loader0 : File → ResultVars := fun _ => [("a", ⟨7, none⟩)]

/-- A ledger state with three known files, all completed. -/
def s7 : RunnerState := ⟨[1, 2, 3], [1, 2, 3], [], none⟩

/-- A ledger state with two known files, the first completed. -/
def s10 : RunnerState := ⟨[1, 2], [1], [2], some [("a", 3)]⟩

/-! Claim theorems. -/

/-- Claim C1 (code bug, evaluated at the failing input): in a round over
pending files `[1, 2, 3]` whose engine raises on file 2 after file 1
succeeded, the aborted round leaves `input_files_completed = [1]` and
raises the failure naming file 2, but `input_files_running` is still the
whole round list `[1, 2, 3]` — not `[2, 3]` as the claim states: the
completed file 1 is still pending, because line 145 of the source (which
clears the running list) only runs when the loop finishes, and no file is
removed from the running list when it completes. -/
theorem claim_C1 :
    (start_one_round engineC1 cfgC1 [1, 2, 3] initState).error
        = some (RoundError.fitFailure 2) ∧
    (start_one_round engineC1 cfgC1 [1, 2, 3]
        initState).state.input_files_completed = [1] ∧
    (start_one_round engineC1 cfgC1 [1, 2, 3]
        initState).state.input_files_running = [1, 2, 3] ∧
    (start_one_round engineC1 cfgC1 [1, 2, 3]
        initState).state.input_files_running ≠ [2, 3] :=
  ⟨rfl, rfl, rfl, by decide⟩

/-- Claim C2 (counterexample to the claim as stated): with an empty
directory the pending list is empty at the start of the round, no error is
raised, but the Python return value is `None` — not the empty result list
the claim promises. -/
theorem claim_C2_counterexample :
    (start_one_round engineFail cfg0 [] initState).error = none ∧
    (start_one_round engineFail cfg0 [] initState).retVal = none ∧
    (start_one_round engineFail cfg0 [] initState).retVal ≠ some [] :=
  ⟨rfl, rfl, by decide⟩

/-- Claim C2 (amended): `start_one_round` always returns `None` — it never
returns a list of FitResults (results are only persisted to disk); in
particular, whenever the pending list is empty after the initial rescan it
returns `None` without raising and without touching the state further. -/
theorem claim_C2 (engine : Engine) (cfg : StoredInputs) (l : List File)
    (s : RunnerState) :
    (start_one_round engine cfg l s).retVal = none ∧
    (∀ s1, check_for_new_data s l = .ok s1 → s1.input_files_running = [] →
      start_one_round engine cfg l s = ⟨s1, none, none⟩) := by
  constructor
  · unfold start_one_round
    split
    · rfl
    · split
      · rfl
      · split
        · rfl
        · rfl
  · intro s1 h1 h2
    unfold start_one_round
    rw [h1]
    simp [h2]

/-- Claim C2 witness: the amended theorem applied to the empty-directory
round. -/
theorem claim_C2_witness :
    start_one_round engineFail cfg0 [] initState = ⟨initState, none, none⟩ :=
  (claim_C2 engineFail cfg0 [] initState).2 initState rfl rfl

/-- Claim C3 (code bug, evaluated at the failing input): with
`refine_variable_names` omitted (`None`) or empty and
`initial_variable_values = {"a": 1}`, `load_inputs` stores
`refine_variable_names or []`, so the stored entry is the empty list and
never `None`; hence the `is None` defaulting of source lines 130-131 never
fires and `refine_variables` receives `[]`, not the key set `["a"]` of the
initial mapping.  The last conjunct runs a whole per-file fit against an
engine that succeeds exactly when the free-name list is empty, showing the
pipeline indeed marks no parameter free. -/
theorem claim_C3 :
    resolve_refine_names
        (load_inputs none (some [("a", 1)])).refine_variable_names
        (load_inputs none (some [("a", 1)])).initial_variable_values = [] ∧
    resolve_refine_names
        (load_inputs (some []) (some [("a", 1)])).refine_variable_names
        (load_inputs (some []) (some [("a", 1)])).initial_variable_values
        = [] ∧
    (load_inputs none (some [("a", 1)])).initial_variable_values.map
        Prod.fst = ["a"] ∧
    ([] : List String) ≠ ["a"] ∧
    (process_file engineC3 (load_inputs none (some [("a", 1)]))
        initState 5).2 = true :=
  ⟨rfl, rfl, rfl, by decide, rfl⟩

/-- Claim C4: a rescan raises the ordering violation if and only if the
first k entries of the new sorted listing (k = number of previously known
files) differ from the previously known sequence; the error is raised
before any mutation, so the ledger is unchanged (the error carries no new
state).  The second conjunct is the deletion scenario: after completing
the file with key 5, a rescan of a directory from which it was deleted
raises the violation. -/
theorem claim_C4 :
    (∀ (s : RunnerState) (sorted_file : List File),
      check_for_new_data s sorted_file = .error .orderingViolation ↔
        sorted_file.take s.input_files_known.length
          ≠ s.input_files_known) ∧
    check_for_new_data ⟨[5], [5], [], none⟩ [10, 15]
      = .error .orderingViolation := by
  constructor
  · intro s l
    unfold check_for_new_data
    by_cases h : s.input_files_known = l.take s.input_files_known.length
    · rw [if_neg (fun hne => hne h)]
      constructor
      · intro hb
        split at hb <;> simp at hb
      · intro hr
        exact absurd h.symm hr
    · rw [if_pos h]
      exact ⟨fun _ e => h e.symm, fun _ => rfl⟩
  · rfl

/-- Claim C5 (code bug, evaluated at the failing trace): starting from the
empty ledger, rescan `[1, 2, 3]` and run a round whose engine raises on
file 2; because the aborted round leaves file 1 in the running list, a
second round (directory unchanged, engine raising on file 2 again) re-fits
file 1 and appends it to `input_files_completed` a second time, giving
`completed = [1, 1]`, which is not a prefix of `known = [1, 2, 3]` —
out-of-order (duplicate) completion does occur, refuting the claimed
invariant over sequences that contain failing round executions. -/
theorem claim_C5 :
    (start_one_round engineC1 cfgC1 [1, 2, 3]
        (start_one_round engineC1 cfgC1 [1, 2, 3]
          initState).state).state.input_files_completed = [1, 1] ∧
    ¬ ((start_one_round engineC1 cfgC1 [1, 2, 3]
        (start_one_round engineC1 cfgC1 [1, 2, 3]
          initState).state).state.input_files_completed <+:
       (start_one_round engineC1 cfgC1 [1, 2, 3]
        (start_one_round engineC1 cfgC1 [1, 2, 3]
          initState).state).state.input_files_known) :=
  ⟨rfl, by decide⟩

/-- Claim C6: during the processing of one file, if the engine call fails
the effective Carryover Store content (the mapping applied as starting
values, i.e. the attribute when present, else the configured initial
values) is exactly what it was before that file's fit began and, when the
attribute already existed, it is literally untouched; the store is
overwritten with the saved result's values only when the engine call
succeeds. -/
theorem claim_C6 (engine : Engine) (cfg : StoredInputs) (s : RunnerState)
    (f : File) :
    (engine f (eff_carryover cfg s)
        (resolve_refine_names cfg.refine_variable_names
          cfg.initial_variable_values) = none →
      eff_carryover cfg (process_file engine cfg s f).1
          = eff_carryover cfg s ∧
      (∀ c, s.last_result_variables_values = some c →
        (process_file engine cfg s f).1.last_result_variables_values
          = some c)) ∧
    (∀ results, engine f (eff_carryover cfg s)
        (resolve_refine_names cfg.refine_variable_names
          cfg.initial_variable_values) = some results →
      (process_file engine cfg s f).1.last_result_variables_values
        = some (extract_values results)) := by
  constructor
  · intro h
    constructor
    · unfold process_file
      dsimp only
      rw [h]
      simp [eff_carryover]
    · intro c hc
      unfold process_file
      dsimp only
      rw [h]
      simp only [eff_carryover, hc, Option.getD_some]
  · intro results h
    unfold process_file
    dsimp only
    rw [h]

/-- Claim C6 witness: the theorem applied to a failing engine on state
`s10` (store already seeded) and to a succeeding engine. -/
theorem claim_C6_witness :
    (eff_carryover cfg0 (process_file engineFail cfg0 s10 1).1
        = eff_carryover cfg0 s10 ∧
      (process_file engineFail cfg0 s10 1).1.last_result_variables_values
        = some [("a", 3)]) ∧
    (process_file engineOk cfg0 initState 1).1.last_result_variables_values
      = some (extract_values [("a", ⟨3, none⟩)]) :=
  ⟨⟨((claim_C6 engineFail cfg0 s10 1).1 rfl).1,
    ((claim_C6 engineFail cfg0 s10 1).1 rfl).2 [("a", 3)] rfl⟩,
   (claim_C6 engineOk cfg0 initState 1).2 [("a", ⟨3, none⟩)] rfl⟩

/-- Claim C7: resuming at a file that is a member of `known` at (first)
position i > 0 sets `input_files_completed` to the first i known files,
`input_files_running` to the files from position i onward, and seeds the
Carryover Store with the `value` field of each entry of the `variables`
section of the persisted result of the file at position i - 1; resuming at
a file not in `known` raises the value error and changes no state. -/
theorem claim_C7 (loader : File → ResultVars) (s : RunnerState)
    (f : File) :
    (f ∉ s.input_files_known →
      set_start_input_file loader s f = (s, some .valueError)) ∧
    (∀ i, f ∈ s.input_files_known → s.input_files_known.indexOf f = i →
      0 < i →
      ∃ g, s.input_files_known[i - 1]? = some g ∧
        set_start_input_file loader s f =
          ({ s with
              input_files_completed := s.input_files_known.take i,
              input_files_running := s.input_files_known.drop i,
              last_result_variables_values :=
                some (extract_values (loader g)) }, none)) := by
  constructor
  · intro hmem
    unfold set_start_input_file
    have hc : s.input_files_known.contains f = false := by
      simp [List.contains, List.elem_iff, hmem]
    rw [hc]
    rfl
  · intro i hmem hidx hpos
    have hlt : i < s.input_files_known.length := by
      rw [← hidx]
      exact List.indexOf_lt_length.mpr hmem
    have hcon : s.input_files_known.contains f = true := by
      simp [List.contains, List.elem_iff, hmem]
    have hlen : (s.input_files_known.take i).length = i := by
      simp [List.length_take]
      omega
    have hglast : (s.input_files_known.take i).getLast?
        = s.input_files_known[i - 1]? := by
      rw [List.getLast?_eq_getElem?, hlen]
      exact List.getElem?_take_of_lt (by omega)
    have hlt2 : i - 1 < s.input_files_known.length := by omega
    obtain ⟨g, hsome⟩ : ∃ g, s.input_files_known[i - 1]? = some g :=
      ⟨_, List.getElem?_eq_getElem hlt2⟩
    refine ⟨g, hsome, ?_⟩
    unfold set_start_input_file
    simp only [hcon, Bool.not_true, Bool.false_eq_true, if_false, hidx]
    rw [hglast, hsome]

/-- Claim C7 witness: the theorem applied to `s7` (known `[1, 2, 3]`)
resuming at file 2 (position 1), and to the unknown file 9. -/
theorem claim_C7_witness :
    (∃ g, s7.input_files_known[1 - 1]? = some g ∧
      set_start_input_file loader0 s7 2 =
        ({ s7 with
            input_files_completed := s7.input_files_known.take 1,
            input_files_running := s7.input_files_known.drop 1,
            last_result_variables_values :=
              some (extract_values (loader0 g)) }, none)) ∧
    set_start_input_file loader0 s7 9 = (s7, some .valueError) :=
  ⟨(claim_C7 loader0 s7 2).2 1 (by decide) rfl (by decide),
   (claim_C7 loader0 s7 9).1 (by decide)⟩

/-- Claim C8: rescanning twice against an unchanged sorted directory
listing yields identical ledger state both times — whenever the first
rescan returns a state, a second rescan with the same listing is a no-op
returning that state unchanged. -/
theorem claim_C8 (s : RunnerState) (l : List File) (s1 : RunnerState)
    (h : check_for_new_data s l = .ok s1) :
    check_for_new_data s1 l = .ok s1 := by
  have hknown : s1.input_files_known = l := by
    unfold check_for_new_data at h
    split at h
    · exact absurd h (by simp)
    · split at h
      next h2 =>
        injection h with h3
        rw [← h3]
        exact h2
      next h2 =>
        injection h with h3
        rw [← h3]
  unfold check_for_new_data
  rw [hknown]
  simp [List.take_length]

/-- Claim C8 witness: the theorem applied to the first rescan of listing
`[1, 2]` from the empty ledger. -/
theorem claim_C8_witness :
    check_for_new_data ⟨[1, 2], [], [1, 2], none⟩ [1, 2]
      = .ok ⟨[1, 2], [], [1, 2], none⟩ :=
  claim_C8 initState [1, 2] ⟨[1, 2], [], [1, 2], none⟩ rfl

/-- Claim C10: resuming at the first file of `known` does not raise the
unknown-file error and does not succeed either: the ledger is mutated
(`input_files_completed` becomes empty, `input_files_running` becomes all
of `known`) and then the `completed[-1]` lookup raises the out-of-range
error, so resumption at the very first input file is impossible through
this operation. -/
theorem claim_C10 (loader : File → ResultVars) (s : RunnerState)
    (f : File) (h : s.input_files_known.head? = some f) :
    set_start_input_file loader s f =
      ({ s with input_files_completed := [],
                input_files_running := s.input_files_known },
        some .indexError) := by
  obtain ⟨t, ht⟩ : ∃ t, s.input_files_known = f :: t := by
    cases hk : s.input_files_known with
    | nil => rw [hk] at h; simp at h
    | cons a t =>
      rw [hk] at h
      simp at h
      exact ⟨t, by rw [h]⟩
  unfold set_start_input_file
  rw [ht]
  simp [List.indexOf_cons_self]

/-- Claim C10 witness: the theorem applied to `s10` (known `[1, 2]`) and
its first file. -/
theorem claim_C10_witness :
    set_start_input_file loader0 s10 1 =
      ({ s10 with input_files_completed := [],
                  input_files_running := s10.input_files_known },
        some .indexError) :=
  claim_C10 loader0 s10 1 rfl

end AgentTools
